import Mathlib

/-!
Verification of the ADANiD-Genesis-Core identity core against its design
specification.

The development shallowly embeds the identity-registration controller
(`functions/controllers/identityController.js`), the persisted user record
schema (`functions/models/User.js`), and the protocol constants
(`functions/config/settings.js`).  Components whose implementation is absent
from the repository (the shard codec, the biometric fuser
`generateSuperIDHash`, the ledger status machine and the CAP tier function)
are modelled from the specification and are marked as such in their doc
comments.
-/

/-- Decidable equality for `Except` results, used to evaluate the embedded
operations at concrete inputs. -/
instance {ε α : Type} [DecidableEq ε] [DecidableEq α] : DecidableEq (Except ε α) :=
  fun a b =>
    match a, b with
    | .ok x, .ok y =>
        if h : x = y then .isTrue (by rw [h]) else .isFalse (by simp [h])
    | .error x, .error y =>
        if h : x = y then .isTrue (by rw [h]) else .isFalse (by simp [h])
    | .ok _, .error _ => .isFalse (by simp)
    | .error _, .ok _ => .isFalse (by simp)

namespace ADANiD

/-- Constants of `GENESIS_PROTOCOL` in `functions/config/settings.js`. -/
structure GenesisProtocolConfig where
  BIOMETRIC_LAYERS_REQUIRED : Nat
  MIN_AUTH_LAYERS : Nat
  RISK_SCORE_HIGH_THRESHOLD : Int
  RISK_SCORE_MEDIUM_THRESHOLD : Int

/-- Values from `functions/config/settings.js` lines 695-709. -/
def GENESIS_PROTOCOL : GenesisProtocolConfig :=
  { BIOMETRIC_LAYERS_REQUIRED := 5
    MIN_AUTH_LAYERS := 3
    RISK_SCORE_HIGH_THRESHOLD := 6
    RISK_SCORE_MEDIUM_THRESHOLD := 3 }

/-- Constants of `SECURITY` in `functions/config/settings.js` lines 712-716. -/
structure SecurityConfig where
  CNIC_SHARDS_TOTAL : Nat
  CNIC_SHARDS_REQUIRED : Nat

/-- Values from `functions/config/settings.js`. -/
def SECURITY : SecurityConfig :=
  { CNIC_SHARDS_TOTAL := 5, CNIC_SHARDS_REQUIRED := 3 }

/-- The five biometric channels destructured from the request body in
`registerIdentity` (identityController.js line 8) and regrouped as the
`biometricData` object (line 13). -/
structure BiometricData where
  fingerprintHash : String
  irisHash : String
  facialHash : String
  voiceHash : String
  behavioralPattern : String
deriving DecidableEq

/-- The request body of `registerIdentity` (identityController.js line 8). -/
structure RegisterRequest where
  fingerprintHash : String
  irisHash : String
  facialHash : String
  voiceHash : String
  behavioralPattern : String
  cnicShards : List String
deriving DecidableEq

/-- The `biometricData` object built on identityController.js line 13. -/
def RegisterRequest.biometricData (req : RegisterRequest) : BiometricData :=
  { fingerprintHash := req.fingerprintHash
    irisHash := req.irisHash
    facialHash := req.facialHash
    voiceHash := req.voiceHash
    behavioralPattern := req.behavioralPattern }

/-- The `newUserRecord` object persisted by `registerIdentity`
(identityController.js lines 17-23): the exact five fields written to the
`adanid_users` document. -/
structure UserRecord where
  superID : String
  biometricHashes : BiometricData
  cnicShards : List String
  status : String
  createdAt : Nat
deriving DecidableEq

/-- The Firestore collection `adanid_users`, keyed by document id (the
superID hash). -/
def Ledger : Type := String → Option UserRecord

/-- An empty ledger store. -/
def Ledger.empty : Ledger := fun _ => none

/-- Firestore `doc(key).set(r)`: an unconditional write, overwriting any
existing document at `key` (identityController.js line 25). -/
def Ledger.set (db : Ledger) (key : String) (r : UserRecord) : Ledger :=
  fun k => if k = key then some r else db k

/-- Read a document (used only in the proofs; the controller itself never
reads before writing). -/
def Ledger.lookup (db : Ledger) (key : String) : Option UserRecord := db key

/-- The two HTTP responses `registerIdentity` can produce: the 201 Success
branch (lines 27-31) and the catch-all 500 branch (lines 33-36). -/
inductive RegisterResponse where
  | success (adanid_super_id : String)
  | serverError (message : String)
deriving DecidableEq

/-- Shallow embedding of `exports.registerIdentity`
(identityController.js lines 6-37).  The function `generateSuperIDHash` is
required from `functions/utils/security/hashUtils`, a module absent from the
repository, so it is taken as a parameter; a hash call that throws is
modelled by its `Except.error` branch, which the `catch` block turns into a
500 response with no ledger write.  `now` stands for the server timestamp of
line 22.  The salt is `cnicShards[0]` (line 11), `none` when the array is
empty.  Note the write on line 25 is an unconditional `set` keyed by the
superID hash: there is no check that the document already exists. -/
def registerIdentity
    (generateSuperIDHash : BiometricData → Option String → Except String String)
    (now : Nat) (req : RegisterRequest) (db : Ledger) :
    RegisterResponse × Ledger :=
  let uniqueSalt := req.cnicShards.head?
  let biometricData := req.biometricData
  match generateSuperIDHash biometricData uniqueSalt with
  | .error msg => (.serverError msg, db)
  | .ok superIDHash =>
      let newUserRecord : UserRecord :=
        { superID := superIDHash
          biometricHashes := biometricData
          cnicShards := req.cnicShards
          status := "ACTIVE"
          createdAt := now }
      (.success superIDHash, db.set superIDHash newUserRecord)

/-- Shallow concurrency model for the ledger: each `registerIdentity` call
touches the shared store in exactly one atomic operation (the single
`set` on line 25), so every interleaving of N concurrent calls is
observationally equivalent to executing the calls in some sequential order.
A schedule is that order; `runSchedule` executes it. -/
def runSchedule
    (generateSuperIDHash : BiometricData → Option String → Except String String)
    (now : Nat) (reqs : List RegisterRequest) (db : Ledger) :
    List RegisterResponse × Ledger :=
  match reqs with
  | [] => ([], db)
  | r :: rest =>
      let step := registerIdentity generateSuperIDHash now r db
      let tail := runSchedule generateSuperIDHash now rest step.2
      (step.1 :: tail.1, tail.2)

/-- A concrete stand-in for the absent `generateSuperIDHash`: deterministic
in the biometric data and the salt, as any pure hash is.  Used to evaluate
the controller at concrete inputs. -/
def exampleHash (b : BiometricData) (salt : Option String) : Except String String :=
  .ok (String.intercalate "|"
    [b.fingerprintHash, b.irisHash, b.facialHash, b.voiceHash,
     b.behavioralPattern, salt.getD "undefined"])

/-- A concrete registration request: five populated biometric channels and
three shards. -/
def reqA : RegisterRequest :=
  { fingerprintHash := "fp", irisHash := "ir", facialHash := "fa"
    voiceHash := "vo", behavioralPattern := "be"
    cnicShards := ["s1", "s2", "s3"] }

/-- A second request with the same biometric channels and the same first
shard but different remaining shards: it derives the same superID hash as
`reqA` (the salt is only `cnicShards[0]`) while carrying a distinct record
payload. -/
def reqB : RegisterRequest :=
  { fingerprintHash := "fp", irisHash := "ir", facialHash := "fa"
    voiceHash := "vo", behavioralPattern := "be"
    cnicShards := ["s1", "x2", "x3"] }

/-- The superID hash `exampleHash` derives for both `reqA` and `reqB`. -/
def sidA : String := "fp|ir|fa|vo|be|s1"

/-- Claim C1.  The claim states a second registration with an
already-mapped fingerprint returns `AlreadyRegistered` and leaves the
existing record unchanged.  The code has no such path: line 25 of
identityController.js performs an unconditional `set`, so the second call
(same fingerprint, distinct shard list) returns 201 Success again and
silently overwrites the stored record. -/
theorem registerIdentity_second_registration_succeeds_and_overwrites :
    (registerIdentity exampleHash 0 reqA Ledger.empty).1 = .success sidA ∧
    (registerIdentity exampleHash 1 reqB
        (registerIdentity exampleHash 0 reqA Ledger.empty).2).1 = .success sidA ∧
    (((registerIdentity exampleHash 0 reqA Ledger.empty).2).lookup sidA).map
        UserRecord.cnicShards = some ["s1", "s2", "s3"] ∧
    (((registerIdentity exampleHash 1 reqB
        (registerIdentity exampleHash 0 reqA Ledger.empty).2).2).lookup sidA).map
        UserRecord.cnicShards = some ["s1", "x2", "x3"] := by
  decide

/-- Claim C2.  The claim states N concurrent `registerIfAbsent` calls with
the same fingerprint yield exactly one success and N-1 `AlreadyRegistered`
under every scheduling.  Each call performs a single atomic store write, so
the schedules for N = 2 are the two sequential orders; under both, both
calls return 201 Success and no call observes the other. -/
theorem runSchedule_same_fingerprint_two_successes_both_orders :
    (runSchedule exampleHash 0 [reqA, reqB] Ledger.empty).1 =
      [.success sidA, .success sidA] ∧
    (runSchedule exampleHash 0 [reqB, reqA] Ledger.empty).1 =
      [.success sidA, .success sidA] := by
  decide

/-- Claim C3, counterexample.  The claim states the shard payloads
themselves are never persisted.  At this concrete registration the stored
`adanid_users` document contains the full `cnicShards` array — the very
shard payloads presented (identityController.js line 20). -/
theorem registered_record_contains_shard_payloads :
    (((registerIdentity exampleHash 0 reqA Ledger.empty).2).lookup sidA).map
      UserRecord.cnicShards = some ["s1", "s2", "s3"] := by
  decide

/-- Claim C3, amended.  Every successful registration persists exactly the
five-field record of identityController.js lines 17-23: the superID
fingerprint, the biometric bundle, the full submitted shard array (not
merely the shard indices), the status `ACTIVE`, and the timestamp; no lock
state and no reconstructed raw secret are persisted (the controller never
reconstructs the secret at all). -/
theorem registerIdentity_persisted_record_shape
    (hash : BiometricData → Option String → Except String String)
    (now : Nat) (req : RegisterRequest) (db : Ledger) (sid : String)
    (h : hash req.biometricData req.cnicShards.head? = .ok sid) :
    (registerIdentity hash now req db).1 = .success sid ∧
    ((registerIdentity hash now req db).2).lookup sid =
      some { superID := sid
             biometricHashes := req.biometricData
             cnicShards := req.cnicShards
             status := "ACTIVE"
             createdAt := now } := by
  simp [registerIdentity, h, Ledger.lookup, Ledger.set]

/-- Witness for the amended claim C3 at a concrete input. -/
theorem registerIdentity_persisted_record_shape_witness :
    (registerIdentity exampleHash 0 reqA Ledger.empty).1 = .success sidA ∧
    ((registerIdentity exampleHash 0 reqA Ledger.empty).2).lookup sidA =
      some { superID := sidA
             biometricHashes := reqA.biometricData
             cnicShards := reqA.cnicShards
             status := "ACTIVE"
             createdAt := 0 } :=
  registerIdentity_persisted_record_shape exampleHash 0 reqA Ledger.empty sidA
    rfl

/-- Claim C10.  In `registerIdentity` the salt is exactly `cnicShards[0]`
(identityController.js line 11), so two requests with the same biometric
channels and the same first shard derive the identical superID hash —
hence identical responses — whatever the remaining shards, timestamps or
store contents are, for every choice of hash function. -/
theorem registerIdentity_superID_depends_only_on_bundle_and_first_shard
    (hash : BiometricData → Option String → Except String String)
    (now1 now2 : Nat) (q1 q2 : RegisterRequest) (db1 db2 : Ledger)
    (hbio : q1.biometricData = q2.biometricData)
    (hhead : q1.cnicShards.head? = q2.cnicShards.head?) :
    (registerIdentity hash now1 q1 db1).1 =
      (registerIdentity hash now2 q2 db2).1 := by
  simp only [registerIdentity, hbio, hhead]
  cases hash q2.biometricData q2.cnicShards.head? <;> rfl

/-- Witness for claim C10: `reqA` and `reqB` differ in their second and
third shards yet produce the same response. -/
theorem registerIdentity_superID_first_shard_witness :
    (registerIdentity exampleHash 0 reqA Ledger.empty).1 =
      (registerIdentity exampleHash 1 reqB Ledger.empty).1 :=
  registerIdentity_superID_depends_only_on_bundle_and_first_shard
    exampleHash 0 1 reqA reqB Ledger.empty Ledger.empty (by decide) (by decide)

/-! ### Biometric fuser

The controller requires `generateSuperIDHash` from
`functions/utils/security/hashUtils`, a module that does not exist in the
repository.  The fuser below is modelled from the specification (section
4.2). -/

/-- Key order on channel entries: lexicographic on the channel name's
character list (the character-list order is exactly the lexicographic
string order). -/
def keyLe (a b : String × String) : Prop := a.1.data ≤ b.1.data

instance : DecidableRel keyLe :=
  fun a b => inferInstanceAs (Decidable (a.1.data ≤ b.1.data))

instance : IsTotal (String × String) keyLe := ⟨fun a b => le_total a.1.data b.1.data⟩

instance : IsTrans (String × String) keyLe := ⟨fun _ _ _ => le_trans⟩

/-- Strict key order, used to show canonical forms are unique. -/
def keyLt (a b : String × String) : Prop := a.1.data < b.1.data

instance : IsAntisymm (String × String) keyLt := ⟨fun _ _ h1 h2 => (lt_asymm h1 h2).elim⟩

/-- The error of the biometric fuser (spec section 4.2). -/
inductive FuseError where
  | InsufficientLayers
deriving DecidableEq

/-- Modelled from the spec (section 4.2): canonicalize the bundle by
sorting channel names lexicographically. -/
def canonicalize (bundle : List (String × String)) : List (String × String) :=
  List.insertionSort keyLe bundle

/-- Number of channels that are present and non-empty in the bundle. -/
def populatedLayers (bundle : List (String × String)) : Nat :=
  (bundle.filter fun p => !(p.2 == "")).length

/-- Modelled from the spec (section 4.2): the biometric fuser behind the
absent `generateSuperIDHash`.  Fails with `InsufficientLayers` when fewer
than `minAuthLayers` channels are populated; otherwise sorts channel names
lexicographically, concatenates each channel's digest with its name as a
domain separator, appends the salt, and runs the whole through the
configured cryptographic hash (the `hashFn` parameter). -/
def fuse (hashFn : String → String) (minAuthLayers : Nat)
    (bundle : List (String × String)) (salt : String) : Except FuseError String :=
  if populatedLayers bundle < minAuthLayers then
    .error .InsufficientLayers
  else
    .ok (hashFn (String.join ((canonicalize bundle).map fun p => p.1 ++ ":" ++ p.2) ++ salt))

/-- A bundle sorted by `keyLe` whose channel names are distinct is strictly
sorted by `keyLt`. -/
theorem sorted_keyLt_of_sorted_keyLe {l : List (String × String)}
    (hs : l.Sorted keyLe) (hnd : (l.map Prod.fst).Nodup) : l.Sorted keyLt := by
  have hnd2 : l.Pairwise (fun a b : String × String => a.1 ≠ b.1) :=
    (List.pairwise_map.mp hnd)
  exact (hs.and hnd2).imp (fun h =>
    lt_of_le_of_ne h.1 (fun hdata => h.2 (String.ext hdata)))

/-- Canonicalization is a function of the channel-to-digest mapping alone:
two bundles that are permutations of one another with distinct channel
names canonicalize identically. -/
theorem canonicalize_eq_of_perm {b1 b2 : List (String × String)}
    (hperm : b1.Perm b2) (hnd : (b1.map Prod.fst).Nodup) :
    canonicalize b1 = canonicalize b2 := by
  have hnd2 : (b2.map Prod.fst).Nodup := ((hperm.map Prod.fst).nodup_iff).mp hnd
  have hp1 : (canonicalize b1).Perm b1 := List.perm_insertionSort keyLe b1
  have hp2 : (canonicalize b2).Perm b2 := List.perm_insertionSort keyLe b2
  have hc1 : ((canonicalize b1).map Prod.fst).Nodup :=
    ((hp1.map Prod.fst).nodup_iff).mpr hnd
  have hc2 : ((canonicalize b2).map Prod.fst).Nodup :=
    ((hp2.map Prod.fst).nodup_iff).mpr hnd2
  exact List.eq_of_perm_of_sorted
    (hp1.trans (hperm.trans hp2.symm))
    (sorted_keyLt_of_sorted_keyLe (List.sorted_insertionSort keyLe b1) hc1)
    (sorted_keyLt_of_sorted_keyLe (List.sorted_insertionSort keyLe b2) hc2)

/-- Claim C6.  The fused fingerprint is a deterministic function of the
(channel-to-digest mapping, salt) pair: for bundles with at least
`minAuthLayers` populated channels, any two insertion orders of the same
channel-to-digest mapping fuse to the identical fingerprint, for every
choice of underlying hash. -/
theorem fuse_order_independent
    (hashFn : String → String) (minL : Nat) (b1 b2 : List (String × String))
    (salt : String) (hperm : b1.Perm b2) (hnd : (b1.map Prod.fst).Nodup)
    (hlayers : minL ≤ populatedLayers b1) :
    fuse hashFn minL b1 salt = fuse hashFn minL b2 salt ∧
    ∃ fp, fuse hashFn minL b1 salt = .ok fp := by
  have hcount : populatedLayers b1 = populatedLayers b2 :=
    (hperm.filter _).length_eq
  have hcanon := canonicalize_eq_of_perm hperm hnd
  constructor
  · simp only [fuse, hcount, hcanon]
  · unfold fuse
    rw [if_neg (Nat.not_lt.mpr hlayers)]
    exact ⟨_, rfl⟩

/-- Witness for claim C6: three populated channels presented in two
different insertion orders fuse identically and successfully. -/
theorem fuse_order_independent_witness :
    fuse id 3 [("fingerprintHash", "f1"), ("irisHash", "i1"), ("facialHash", "c1")] "s" =
      fuse id 3 [("facialHash", "c1"), ("fingerprintHash", "f1"), ("irisHash", "i1")] "s" ∧
    ∃ fp, fuse id 3 [("fingerprintHash", "f1"), ("irisHash", "i1"), ("facialHash", "c1")] "s" =
      .ok fp :=
  fuse_order_independent id 3
    [("fingerprintHash", "f1"), ("irisHash", "i1"), ("facialHash", "c1")]
    [("facialHash", "c1"), ("fingerprintHash", "f1"), ("irisHash", "i1")]
    "s" (by decide) (by decide) (by decide)

/-- The five channels of the controller's `biometricData` object
(identityController.js line 13), in the insertion order of the object
literal. -/
def channelsOf (b : BiometricData) : List (String × String) :=
  [("fingerprintHash", b.fingerprintHash), ("irisHash", b.irisHash),
   ("facialHash", b.facialHash), ("voiceHash", b.voiceHash),
   ("behavioralPattern", b.behavioralPattern)]

/-- Modelled from the spec: the absent `generateSuperIDHash` as the
biometric fuser applied to the controller's five channels, with
`MIN_AUTH_LAYERS` from `functions/config/settings.js`; an undefined salt
(empty shard array) is the string an evaluated template would produce. -/
def generateSuperIDHashModel (hashFn : String → String)
    (b : BiometricData) (salt : Option String) : Except String String :=
  match fuse hashFn GENESIS_PROTOCOL.MIN_AUTH_LAYERS (channelsOf b) (salt.getD "undefined") with
  | .error .InsufficientLayers => .error "InsufficientLayers"
  | .ok fp => .ok fp

/-- Claim C7.  When fewer than `MIN_AUTH_LAYERS` (3) of the biometric
channels are populated, fusion fails with `InsufficientLayers`; the
controller's catch block turns the failure into a 500 response and the
ledger is left untouched — no fingerprint and no record is produced. -/
theorem registerIdentity_insufficient_layers_no_record
    (hashFn : String → String) (now : Nat) (req : RegisterRequest) (db : Ledger)
    (h : populatedLayers (channelsOf req.biometricData) < GENESIS_PROTOCOL.MIN_AUTH_LAYERS) :
    fuse hashFn GENESIS_PROTOCOL.MIN_AUTH_LAYERS (channelsOf req.biometricData)
        ((req.cnicShards.head?).getD "undefined") = .error .InsufficientLayers ∧
    registerIdentity (generateSuperIDHashModel hashFn) now req db =
      (.serverError "InsufficientLayers", db) := by
  constructor
  · simp only [fuse, if_pos h]
  · simp only [registerIdentity, generateSuperIDHashModel, fuse, if_pos h]

/-- Witness for claim C7: a request with only two populated channels is
rejected with no ledger write. -/
theorem registerIdentity_insufficient_layers_witness :
    fuse id GENESIS_PROTOCOL.MIN_AUTH_LAYERS
        (channelsOf ({ fingerprintHash := "fp", irisHash := "ir", facialHash := ""
                       voiceHash := "", behavioralPattern := ""
                       cnicShards := ["s1", "s2", "s3"] : RegisterRequest }).biometricData)
        ((["s1", "s2", "s3"].head?).getD "undefined") = .error .InsufficientLayers ∧
    registerIdentity (generateSuperIDHashModel id) 0
        { fingerprintHash := "fp", irisHash := "ir", facialHash := ""
          voiceHash := "", behavioralPattern := ""
          cnicShards := ["s1", "s2", "s3"] } Ledger.empty =
      (.serverError "InsufficientLayers", Ledger.empty) :=
  registerIdentity_insufficient_layers_no_record id 0
    { fingerprintHash := "fp", irisHash := "ir", facialHash := ""
      voiceHash := "", behavioralPattern := ""
      cnicShards := ["s1", "s2", "s3"] } Ledger.empty (by decide)

/-! ### Identity status state machine

The repository only declares the status enum
(`functions/models/User.js` lines 86-90: `ACTIVE`, `FROZEN`,
`PENDING_VERIFICATION`); no `transitionStatus` implementation exists, so
the machine is modelled from the specification (section 4.3). -/

/-- The `status` enum of `UserSchema` (functions/models/User.js line 88). -/
inductive IdentityStatus where
  | PENDING_VERIFICATION
  | ACTIVE
  | FROZEN
deriving DecidableEq, Fintype

/-- The error of an illegal status transition (spec section 4.3). -/
inductive TransitionError where
  | InvalidTransition
deriving DecidableEq

/-- Modelled from the spec (section 4.3): the transitions the ledger's
`transitionStatus` admits — `PENDING_VERIFICATION -> ACTIVE -> FROZEN` and
nothing else. -/
def allowedTransition : IdentityStatus → IdentityStatus → Bool
  | .PENDING_VERIFICATION, .ACTIVE => true
  | .ACTIVE, .FROZEN => true
  | _, _ => false

/-- Modelled from the spec (section 4.3): `transitionStatus` on a record's
current status. -/
def transitionStatus (cur new : IdentityStatus) : Except TransitionError IdentityStatus :=
  if allowedTransition cur new then .ok new else .error .InvalidTransition

/-- Run a sequence of requested transitions; a rejected transition surfaces
its error to the caller and leaves the status unchanged. -/
def applyTransitions (cur : IdentityStatus) : List IdentityStatus → IdentityStatus
  | [] => cur
  | t :: rest =>
      match transitionStatus cur t with
      | .ok s => applyTransitions s rest
      | .error _ => applyTransitions cur rest

/-- A FROZEN record stays FROZEN under every sequence of requested
transitions. -/
theorem applyTransitions_frozen (l : List IdentityStatus) :
    applyTransitions .FROZEN l = .FROZEN := by
  induction l with
  | nil => rfl
  | cons t rest ih =>
      cases t <;> simpa [applyTransitions, transitionStatus, allowedTransition] using ih

/-- Claim C8.  The status machine admits exactly
`PENDING_VERIFICATION -> ACTIVE -> FROZEN`: a transition succeeds precisely
on those two edges (so FROZEN is reachable only from ACTIVE), a FROZEN
record never leaves FROZEN under any sequence of requested transitions, and
every other requested transition fails with `InvalidTransition`. -/
theorem statusMachine_transitions (s t : IdentityStatus) (l : List IdentityStatus) :
    (transitionStatus s t = .ok t ↔
      (s = .PENDING_VERIFICATION ∧ t = .ACTIVE) ∨ (s = .ACTIVE ∧ t = .FROZEN)) ∧
    (transitionStatus s t = .ok t → t = .FROZEN → s = .ACTIVE) ∧
    applyTransitions .FROZEN l = .FROZEN ∧
    (allowedTransition s t = false → transitionStatus s t = .error .InvalidTransition) := by
  refine ⟨?_, ?_, applyTransitions_frozen l, ?_⟩
  · revert s t
    decide
  · revert s t
    decide
  · revert s t
    decide

/-- Witness for claim C8 at concrete statuses: freezing is allowed from
ACTIVE, a FROZEN record survives a PENDING/ACTIVE request sequence
unchanged, and thawing a FROZEN record is an `InvalidTransition`. -/
theorem statusMachine_transitions_witness :
    (transitionStatus .ACTIVE .FROZEN = .ok .FROZEN ↔
      (IdentityStatus.ACTIVE = .PENDING_VERIFICATION ∧ IdentityStatus.FROZEN = .ACTIVE) ∨
      (IdentityStatus.ACTIVE = .ACTIVE ∧ IdentityStatus.FROZEN = .FROZEN)) ∧
    IdentityStatus.ACTIVE = IdentityStatus.ACTIVE ∧
    applyTransitions .FROZEN [.ACTIVE, .PENDING_VERIFICATION] = .FROZEN ∧
    transitionStatus .FROZEN .ACTIVE = .error .InvalidTransition :=
  ⟨(statusMachine_transitions .ACTIVE .FROZEN [.ACTIVE, .PENDING_VERIFICATION]).1,
   (statusMachine_transitions .ACTIVE .FROZEN [.ACTIVE, .PENDING_VERIFICATION]).2.1
     (by decide) (by decide),
   (statusMachine_transitions .ACTIVE .FROZEN [.ACTIVE, .PENDING_VERIFICATION]).2.2.1,
   (statusMachine_transitions .FROZEN .ACTIVE []).2.2.2 (by decide)⟩

/-! ### Continuous Authentication (CAP) tier

The repository declares only the thresholds
(`RISK_SCORE_HIGH_THRESHOLD: 6`, `RISK_SCORE_MEDIUM_THRESHOLD: 3` in
`functions/config/settings.js` lines 707-708); the scorer itself is absent
and is modelled from the specification (section 4.4). -/

/-- The session risk tiers of the spec's `SessionRiskState`. -/
inductive RiskTier where
  | LOW
  | MEDIUM
  | HIGH
deriving DecidableEq

/-- Modelled from the spec (section 4.4): the tier reported for a risk
score — HIGH at or above the high threshold, MEDIUM at or above the medium
threshold, LOW otherwise. -/
def capTier (highThreshold mediumThreshold riskScore : Int) : RiskTier :=
  if highThreshold ≤ riskScore then .HIGH
  else if mediumThreshold ≤ riskScore then .MEDIUM
  else .LOW

/-- The spec's `SessionRiskState` (section 3). -/
structure SessionRiskState where
  sessionId : String
  fingerprint : String
  riskScore : Int
  lastEvaluatedAt : Nat
  tier : RiskTier
deriving DecidableEq

/-- Modelled from the spec (section 4.4): re-evaluating a session risk
state at a new score sets the tier from the configured thresholds. -/
def SessionRiskState.rescore (st : SessionRiskState) (newScore : Int) (at_ : Nat) :
    SessionRiskState :=
  { st with
    riskScore := newScore
    lastEvaluatedAt := at_
    tier := capTier GENESIS_PROTOCOL.RISK_SCORE_HIGH_THRESHOLD
      GENESIS_PROTOCOL.RISK_SCORE_MEDIUM_THRESHOLD newScore }

/-- Claim C9.  For every session risk state produced by the scorer, the
reported tier is HIGH exactly when the risk score is at least the high
threshold (6), MEDIUM exactly when it is at least the medium threshold (3)
but below the high threshold, and LOW exactly otherwise; in particular a
score pushed from 2 to 7 is reported HIGH. -/
theorem capTier_thresholds (st : SessionRiskState) (score : Int) (at_ : Nat) :
    ((st.rescore score at_).tier = .HIGH ↔ 6 ≤ score) ∧
    ((st.rescore score at_).tier = .MEDIUM ↔ 3 ≤ score ∧ score < 6) ∧
    ((st.rescore score at_).tier = .LOW ↔ score < 3) ∧
    ((st.rescore 2 at_).rescore 7 at_).tier = .HIGH := by
  have hh : GENESIS_PROTOCOL.RISK_SCORE_HIGH_THRESHOLD = 6 := rfl
  have hm : GENESIS_PROTOCOL.RISK_SCORE_MEDIUM_THRESHOLD = 3 := rfl
  refine ⟨?_, ?_, ?_, rfl⟩ <;>
    · simp only [SessionRiskState.rescore, capTier, hh, hm]
      split_ifs with h1 h2 <;> simp <;> omega

/-! ### Shard codec

No shard codec implementation exists in the repository: only its
configuration is declared (`CNIC_SHARDS_TOTAL: 5`, `CNIC_SHARDS_REQUIRED: 3`
in `functions/config/settings.js`) and the shards flow opaquely through the
controller.  The codec is modelled from the specification (section 4.1): a
polynomial Lagrange-style threshold scheme over a finite field — the secret
is the constant term of a degree-(k-1) polynomial, each share an evaluation
point.  Byte strings are encoded element-wise in the field `ZMod q`, `q`
prime. -/

open Polynomial

/-- Interpolating any polynomial of degree below the number of nodes at its
values and evaluating at zero recovers its constant term: the sum of each
value weighted by its Lagrange coefficient at zero equals the evaluation of
the polynomial at zero. -/
theorem lagrange_eval_zero {F : Type} [Field F] {ι : Type} [DecidableEq ι]
    (S : Finset ι) (v : ι → F) (hinj : Set.InjOn v S) (f : Polynomial F)
    (hdeg : f.degree < S.card) :
    ∑ i ∈ S, f.eval (v i) * ∏ j ∈ S.erase i, (v j * (v j - v i)⁻¹) = f.eval 0 := by
  conv_rhs => rw [Lagrange.eq_interpolate hinj hdeg]
  rw [Lagrange.interpolate_apply, Polynomial.eval_finset_sum]
  refine (Finset.sum_congr rfl fun i hi => ?_).symm
  rw [Polynomial.eval_mul, Polynomial.eval_C, Lagrange.basis, Polynomial.eval_prod]
  congr 1
  refine Finset.prod_congr rfl fun j hj => ?_
  rw [Lagrange.basisDivisor, Polynomial.eval_mul, Polynomial.eval_C, Polynomial.eval_sub,
    Polynomial.eval_X, Polynomial.eval_C, zero_sub, ← neg_sub (v j) (v i), inv_neg]
  ring

/-- The spec's `SecretShare` (section 3): index in `[1, N]`, payload, and
the `(N, K)` configuration it was produced under. -/
structure SecretShare (q : ℕ) where
  index : ℕ
  payload : ZMod q
  totalShares : ℕ
  threshold : ℕ
deriving DecidableEq

variable {q : ℕ}

/-- Coefficient `t` of the sharing polynomial: the secret at `t = 0`, the
randomly drawn coefficients above (randomness is drawn outside this model
and passed in). -/
def shamirCoeff (secret : ZMod q) (coeffs : ℕ → ZMod q) : ℕ → ZMod q :=
  fun t => if t = 0 then secret else coeffs t

/-- Evaluation of the degree-(k-1) sharing polynomial at `x`. -/
def shareValue (secret : ZMod q) (coeffs : ℕ → ZMod q) (k : ℕ) (x : ZMod q) : ZMod q :=
  ∑ t ∈ Finset.range k, shamirCoeff secret coeffs t * x ^ t

/-- The share at index `i`: the evaluation point `(i, f(i))` tagged with the
`(n, k)` configuration. -/
def shamirShare (secret : ZMod q) (coeffs : ℕ → ZMod q) (n k : ℕ) (i : ℕ) : SecretShare q :=
  { index := i, payload := shareValue secret coeffs k ((i : ℕ) : ZMod q)
    totalShares := n, threshold := k }

/-- Modelled from the spec (section 4.1): `split(secret, n, k)` produces the
`n` shares with indices `1..n`. -/
def split (secret : ZMod q) (coeffs : ℕ → ZMod q) (n k : ℕ) : List (SecretShare q) :=
  (List.range n).map fun i => shamirShare secret coeffs n k (i + 1)

/-- The errors of `reconstruct` (spec section 4.1).  Share checksums are not
part of this model, so `CorruptShare` is never produced here. -/
inductive ShardError where
  | InsufficientShares
  | CorruptShare
deriving DecidableEq

/-- Drop shares whose index repeats an earlier one (`seen` accumulates the
indices already kept). -/
def dedupByIndexAux (seen : List ℕ) : List (SecretShare q) → List (SecretShare q)
  | [] => []
  | s :: rest =>
      if s.index ∈ seen then dedupByIndexAux seen rest
      else s :: dedupByIndexAux (s.index :: seen) rest

/-- A share is validly indexed when its index lies in `[1, n]`. -/
def validShare (n0 : ℕ) (s : SecretShare q) : Bool :=
  decide (1 ≤ s.index) && decide (s.index ≤ n0)

/-- Lagrange interpolation of the share points evaluated at zero: each
payload weighted by the product of `x_j / (x_j - x_i)` over the other
shares. -/
def lagrangeAtZero (pts : List (SecretShare q)) : ZMod q :=
  (pts.map fun s => s.payload *
    ((pts.filter fun t => !(t.index == s.index)).map fun t =>
      ((t.index : ℕ) : ZMod q) * (((t.index : ℕ) : ZMod q) - ((s.index : ℕ) : ZMod q))⁻¹).prod).sum

/-- Modelled from the spec (section 4.1): `reconstruct` fails with
`InsufficientShares` when fewer than `k` distinct, validly-indexed shares
are supplied, and otherwise interpolates the first `k` of them at zero. -/
def reconstruct (shares : List (SecretShare q)) : Except ShardError (ZMod q) :=
  match shares with
  | [] => .error .InsufficientShares
  | s0 :: _ =>
      let valid := shares.filter (validShare s0.totalShares)
      let distinct := dedupByIndexAux [] valid
      if distinct.length < s0.threshold then .error .InsufficientShares
      else .ok (lagrangeAtZero (distinct.take s0.threshold))

/-- Deduplication leaves a list of distinctly indexed shares untouched. -/
theorem dedupByIndexAux_eq_self (seen : List ℕ) (l : List (SecretShare q))
    (hnd : (l.map SecretShare.index).Nodup) (hdis : ∀ s ∈ l, s.index ∉ seen) :
    dedupByIndexAux seen l = l := by
  induction l generalizing seen with
  | nil => rfl
  | cons s rest ih =>
      rw [List.map_cons, List.nodup_cons] at hnd
      rw [dedupByIndexAux, if_neg (hdis s (List.mem_cons_self s rest))]
      congr 1
      refine ih (s.index :: seen) hnd.2 fun t ht => ?_
      rw [List.mem_cons]
      push_neg
      exact ⟨fun he => hnd.1 (he ▸ List.mem_map_of_mem SecretShare.index ht),
        hdis t (List.mem_cons_of_mem s ht)⟩

/-- The executable share value is the evaluation of the sharing
polynomial. -/
theorem shareValue_eq_eval (secret : ZMod q) (coeffs : ℕ → ZMod q) (k : ℕ) (x : ZMod q) :
    shareValue secret coeffs k x =
      Polynomial.eval x (∑ t : Fin k, C (shamirCoeff secret coeffs t) * X ^ (t : ℕ)) := by
  rw [Polynomial.eval_finset_sum, shareValue,
    ← Fin.sum_univ_eq_sum_range (fun t => shamirCoeff secret coeffs t * x ^ t) k]
  exact Finset.sum_congr rfl fun t _ => by
    rw [Polynomial.eval_mul, Polynomial.eval_C, Polynomial.eval_pow, Polynomial.eval_X]

/-- The sharing polynomial evaluates at zero to the secret. -/
theorem shamirPoly_eval_zero (secret : ZMod q) (coeffs : ℕ → ZMod q) {k : ℕ} (hk : 0 < k) :
    Polynomial.eval 0 (∑ t : Fin k, C (shamirCoeff secret coeffs t) * X ^ (t : ℕ)) = secret := by
  rw [Polynomial.eval_finset_sum, Finset.sum_eq_single (⟨0, hk⟩ : Fin k)]
  · simp [shamirCoeff]
  · intro b _ hb
    have hb0 : (b : ℕ) ≠ 0 := fun h => hb (Fin.ext h)
    simp [zero_pow hb0]
  · intro h
    exact absurd (Finset.mem_univ _) h

/-- The sharing polynomial has degree below `k`. -/
theorem shamirPoly_degree_lt (secret : ZMod q) (coeffs : ℕ → ZMod q) (k : ℕ) :
    (∑ t : Fin k, C (shamirCoeff secret coeffs t) * X ^ (t : ℕ)).degree < (k : WithBot ℕ) := by
  simpa using
    Polynomial.degree_sum_fin_lt (fun t : Fin k => shamirCoeff secret coeffs t)

/-- Interpolating the shares at the indices `sel` recovers the secret, when
the `k` indices are distinct, lie in `[1, n]`, and the field is larger than
`n`. -/
theorem lagrangeAtZero_shamir [Fact q.Prime] (secret : ZMod q) (coeffs : ℕ → ZMod q)
    {n k : ℕ} (hk : 0 < k) (hnq : n < q) (sel : List ℕ) (hnd : sel.Nodup)
    (hlen : sel.length = k) (hmem : ∀ i ∈ sel, 1 ≤ i ∧ i ≤ n) :
    lagrangeAtZero (sel.map (shamirShare secret coeffs n k)) = secret := by
  set v : ℕ → ZMod q := fun i => ((i : ℕ) : ZMod q) with hv
  set g := shamirShare secret coeffs n k with hg
  have h1 : lagrangeAtZero (sel.map g) =
      (sel.map (fun i => shareValue secret coeffs k (v i) *
        ((sel.filter fun j => !(j == i)).map (fun j => v j * (v j - v i)⁻¹)).prod)).sum := by
    rw [lagrangeAtZero, List.map_map]
    congr 1
    refine List.map_congr_left fun i hi => ?_
    show (g i).payload * _ = _
    rw [List.filter_map, List.map_map]
    rfl
  have h2 : ∀ i : ℕ, (sel.filter fun j => !(j == i)).toFinset = sel.toFinset.erase i := by
    intro i
    rw [List.toFinset_filter]
    rw [← Finset.filter_ne' sel.toFinset i]
    exact Finset.filter_congr fun j _ => by simp
  have hinj : Set.InjOn v sel.toFinset := by
    intro a ha b hb hab
    have ha2 := hmem a (List.mem_toFinset.mp (Finset.mem_coe.mp ha))
    have hb2 := hmem b (List.mem_toFinset.mp (Finset.mem_coe.mp hb))
    have := congrArg ZMod.val hab
    rwa [hv, ZMod.val_natCast_of_lt (lt_of_le_of_lt ha2.2 hnq),
      ZMod.val_natCast_of_lt (lt_of_le_of_lt hb2.2 hnq)] at this
  rw [h1, ← List.sum_toFinset _ hnd]
  have h3 : ∀ i ∈ sel.toFinset,
      shareValue secret coeffs k (v i) *
        ((sel.filter fun j => !(j == i)).map (fun j => v j * (v j - v i)⁻¹)).prod =
      Polynomial.eval (v i) (∑ t : Fin k, C (shamirCoeff secret coeffs t) * X ^ (t : ℕ)) *
        ∏ j ∈ sel.toFinset.erase i, (v j * (v j - v i)⁻¹) := by
    intro i hi
    rw [shareValue_eq_eval, ← List.prod_toFinset _ (hnd.filter _), h2 i]
  rw [Finset.sum_congr rfl h3]
  rw [lagrange_eval_zero sel.toFinset v hinj _
    (by rw [List.toFinset_card_of_nodup hnd, hlen]
        exact shamirPoly_degree_lt secret coeffs k)]
  exact shamirPoly_eval_zero secret coeffs hk

/-- All shares produced by `shamirShare` at indices in `[1, n]` are
validly indexed, so the validity filter keeps them all. -/
theorem filter_valid_eq_self (secret : ZMod q) (coeffs : ℕ → ZMod q) {n k : ℕ}
    (sel : List ℕ) (hmem : ∀ i ∈ sel, 1 ≤ i ∧ i ≤ n) :
    (sel.map (shamirShare secret coeffs n k)).filter (validShare n) =
      sel.map (shamirShare secret coeffs n k) := by
  rw [List.filter_eq_self]
  intro s hs
  rw [List.mem_map] at hs
  obtain ⟨i, hi, rfl⟩ := hs
  simpa [validShare, shamirShare] using hmem i hi

/-- The indices of the mapped shares are the selected indices. -/
theorem map_index_shamir (secret : ZMod q) (coeffs : ℕ → ZMod q) {n k : ℕ}
    (sel : List ℕ) :
    (sel.map (shamirShare secret coeffs n k)).map SecretShare.index = sel := by
  rw [List.map_map]
  exact List.map_id sel

/-- Claim C4.  For every secret and every `(n, k)` with `1 < k ≤ n` (and
the field larger than `n`, so that the `n` evaluation points are distinct),
the shares at any `k` distinct indices of `[1, n]` are among the `n` shares
produced by `split`, and reconstructing from exactly those `k` shares
returns the original secret. -/
theorem split_reconstruct_roundtrip [Fact q.Prime] (secret : ZMod q)
    (coeffs : ℕ → ZMod q) (n k : ℕ) (hk : 1 < k) (hkn : k ≤ n) (hnq : n < q)
    (sel : List ℕ) (hnd : sel.Nodup) (hlen : sel.length = k)
    (hmem : ∀ i ∈ sel, 1 ≤ i ∧ i ≤ n) :
    (∀ i ∈ sel, shamirShare secret coeffs n k i ∈ split secret coeffs n k) ∧
    reconstruct (sel.map (shamirShare secret coeffs n k)) = .ok secret := by
  constructor
  · intro i hi
    have hb := hmem i hi
    rw [split, List.mem_map]
    exact ⟨i - 1, List.mem_range.mpr (by omega), by congr 1; omega⟩
  · cases sel with
    | nil => exact absurd hlen (by simp; omega)
    | cons i0 rest =>
        set g := shamirShare secret coeffs n k with hg
        have hL := filter_valid_eq_self secret coeffs (n := n) (k := k) (i0 :: rest) hmem
        have hdedup : dedupByIndexAux [] ((i0 :: rest).map g) = (i0 :: rest).map g :=
          dedupByIndexAux_eq_self [] _
            ((map_index_shamir secret coeffs (i0 :: rest)).symm ▸ hnd)
            (fun _ _ => List.not_mem_nil _)
        have hlenL : ((i0 :: rest).map g).length = k := by
          rw [List.length_map]; exact hlen
        show (if (dedupByIndexAux [] (((i0 :: rest).map g).filter (validShare n))).length < k
              then Except.error ShardError.InsufficientShares
              else Except.ok (lagrangeAtZero
                ((dedupByIndexAux [] (((i0 :: rest).map g).filter (validShare n))).take k))) =
            Except.ok secret
        rw [hL, hdedup, if_neg (by rw [hlenL]; exact lt_irrefl k)]
        rw [← hlenL, List.take_length]
        exact congrArg Except.ok
          (lagrangeAtZero_shamir secret coeffs (by omega) hnq (i0 :: rest) hnd hlen hmem)

/-- The prime field used in the concrete witnesses. -/
instance : Fact (Nat.Prime 11) := ⟨by norm_num⟩

/-- Witness for claim C4 at the repository's configuration `n = 5`,
`k = 3`: shares 1, 3 and 5 of a concrete split reconstruct the secret. -/
theorem split_reconstruct_roundtrip_witness :
    (∀ i ∈ [1, 3, 5], shamirShare (7 : ZMod 11) (fun t => ((t : ℕ) + 1 : ZMod 11)) 5 3 i ∈
      split (7 : ZMod 11) (fun t => ((t : ℕ) + 1 : ZMod 11)) 5 3) ∧
    reconstruct ([1, 3, 5].map (shamirShare (7 : ZMod 11)
      (fun t => ((t : ℕ) + 1 : ZMod 11)) 5 3)) = .ok 7 :=
  split_reconstruct_roundtrip (7 : ZMod 11) (fun t => ((t : ℕ) + 1 : ZMod 11)) 5 3
    (by omega) (by omega) (by omega) [1, 3, 5] (by decide) rfl (by decide)

/-- Fewer than `k` distinct validly-indexed shares reconstruct to
`InsufficientShares`. -/
theorem reconstruct_insufficient (secret : ZMod q) (coeffs : ℕ → ZMod q) {n k : ℕ}
    (sel : List ℕ) (hnd : sel.Nodup) (hmem : ∀ i ∈ sel, 1 ≤ i ∧ i ≤ n)
    (hfew : sel.length < k) :
    reconstruct (sel.map (shamirShare secret coeffs n k)) = .error .InsufficientShares := by
  cases sel with
  | nil => rfl
  | cons i0 rest =>
      set g := shamirShare secret coeffs n k with hg
      have hL := filter_valid_eq_self secret coeffs (n := n) (k := k) (i0 :: rest) hmem
      have hdedup : dedupByIndexAux [] ((i0 :: rest).map g) = (i0 :: rest).map g :=
        dedupByIndexAux_eq_self [] _
          ((map_index_shamir secret coeffs (i0 :: rest)).symm ▸ hnd)
          (fun _ _ => List.not_mem_nil _)
      show (if (dedupByIndexAux [] (((i0 :: rest).map g).filter (validShare n))).length < k
            then Except.error ShardError.InsufficientShares
            else Except.ok (lagrangeAtZero
              ((dedupByIndexAux [] (((i0 :: rest).map g).filter (validShare n))).take k))) =
          Except.error ShardError.InsufficientShares
      rw [hL, hdedup, if_pos (by rw [List.length_map]; exact hfew)]

/-- A registration request presenting only two shards. -/
def reqC : RegisterRequest :=
  { fingerprintHash := "fp", irisHash := "ir", facialHash := "fa"
    voiceHash := "vo", behavioralPattern := "be"
    cnicShards := ["s1", "s2"] }

/-- Claim C5.  The first half holds of the modelled codec: fewer than `k`
distinct valid shares reconstruct to `InsufficientShares`.  The second half
fails on the controller: `registerIdentity` never validates the shard count
and never calls reconstruct — a request carrying two shards (threshold 3)
still derives a superID from `cnicShards[0]`, returns 201 Success, and
writes a ledger record. -/
theorem reconstruct_insufficient_but_controller_writes
    (secret : ZMod q) (coeffs : ℕ → ZMod q) (n k : ℕ)
    (sel : List ℕ) (hnd : sel.Nodup) (hmem : ∀ i ∈ sel, 1 ≤ i ∧ i ≤ n)
    (hfew : sel.length < k) :
    reconstruct (sel.map (shamirShare secret coeffs n k)) = .error .InsufficientShares ∧
    (registerIdentity exampleHash 0 reqC Ledger.empty).1 = .success sidA ∧
    ((registerIdentity exampleHash 0 reqC Ledger.empty).2).lookup sidA ≠ none := by
  exact ⟨reconstruct_insufficient secret coeffs sel hnd hmem hfew, by decide, by decide⟩

/-- Witness for claim C5 at the repository's configuration: two shards
against threshold 3. -/
theorem reconstruct_insufficient_witness :
    reconstruct ([1, 2].map (shamirShare (7 : ZMod 11) (fun _ => 2) 5 3)) =
      .error .InsufficientShares ∧
    (registerIdentity exampleHash 0 reqC Ledger.empty).1 = .success sidA ∧
    ((registerIdentity exampleHash 0 reqC Ledger.empty).2).lookup sidA ≠ none :=
  reconstruct_insufficient_but_controller_writes (7 : ZMod 11) (fun _ => 2) 5 3
    [1, 2] (by decide) (by decide) (by decide)

end ADANiD
